import Mathlib

/-
Verification development for the reservoir-drain simulation repository.

The numerical code is embedded shallowly over the real numbers: Python
floats become `ℝ`, `np.sqrt` becomes `Real.sqrt`, `np.log10` becomes
`Real.logb 10`, and each `while`/`for` loop becomes a fuel-indexed
recursion (`none` meaning "the loop has not finished within the given
number of iterations" for loops the source does not bound, and the
raised `RuntimeError` for the solver that raises on exhaustion).
-/

namespace ProperFluidSim

/-- Gravitational acceleration (m/s^2), module constant `G`. -/
def G : ℝ := 9.81

/-- Water density (kg/m^3), module constant `RHO`. -/
def RHO : ℝ := 1000

/-- Dynamic viscosity of water (Pa.s), module constant `MU`. -/
def MU : ℝ := 0.001

/-- Tube diameter (m), module constant `D_TUBE`. -/
def D_TUBE : ℝ := 0.00794

/-- Tube cross-sectional area (m^2): `A_TUBE = pi * (D_TUBE / 2)**2`. -/
noncomputable def A_TUBE : ℝ := Real.pi * (D_TUBE / 2) ^ 2

/-- Tank length (m). -/
def LENGTH_TANK : ℝ := 0.32

/-- Tank width (m). -/
def WIDTH_TANK : ℝ := 0.26

/-- Tank cross-sectional area: `A_TANK = LENGTH_TANK * WIDTH_TANK`. -/
def A_TANK : ℝ := LENGTH_TANK * WIDTH_TANK

/-- Roughness of the tube (m), module constant `EPSILON`. -/
def EPSILON : ℝ := 0.0000015

/-- Entrance loss coefficient. -/
def K_ENTRANCE : ℝ := 0.45

/-- Exit loss coefficient. -/
def K_EXIT : ℝ := 0

/-- Initial water height (m). -/
def H_INITIAL : ℝ := 0.10

/-- Final height (m). -/
def H_FINAL : ℝ := 0.02

/-- Time step (s), module constant `DT`. -/
def DT : ℝ := 0.01

/-- Colebrook-White equation for the friction factor, from `colebrook(Re, d, f)`:
`(-2.0 * np.log10(EPSILON / (3.7 * d) + 2.51 / (Re * np.sqrt(f)))) ** -2`. -/
noncomputable def colebrook (Re d f : ℝ) : ℝ :=
  ((-2.0) * Real.logb 10 (EPSILON / (3.7 * d) + 2.51 / (Re * Real.sqrt f))) ^ (-2 : ℤ)

/-- The velocity formula used by `calculate_velocity_and_friction`:
`np.sqrt(2 * G * h / (1 + (f * L / D_TUBE) + K_ENTRANCE + K_EXIT))`. -/
noncomputable def velocityOf (h L f : ℝ) : ℝ :=
  Real.sqrt (2 * G * h / (1 + f * L / D_TUBE + K_ENTRANCE + K_EXIT))

/-- The Reynolds number as actually used by the solver loop:
`Re = RHO * v * D_TUBE / MU`, floored at `1e-6` by
`if Re < 1e-6: Re = 1e-6` ("Avoid division by zero"). -/
noncomputable def reynoldsUsed (v : ℝ) : ℝ :=
  if RHO * v * D_TUBE / MU < 1e-6 then 1e-6 else RHO * v * D_TUBE / MU

/-- One friction-factor update of the solver loop:
laminar branch `64 / Re` when `Re < 2300`, otherwise `colebrook(Re, D_TUBE, f)`
with the previous iterate `f` substituted into the implicit term. -/
noncomputable def new_f (v f : ℝ) : ℝ :=
  if reynoldsUsed v < 2300 then 64 / reynoldsUsed v
  else colebrook (reynoldsUsed v) D_TUBE f

/-- The `for _ in range(max_iterations)` loop of
`calculate_velocity_and_friction`, with the remaining iteration count as
fuel.  On `break` (`abs(new_f - f) < tol`) the current `(v, f)` pair is
returned unchanged; on exhaustion the current pair is returned as well,
exactly as in the source (which has no error path). -/
noncomputable def cvfLoop (h L tol : ℝ) : ℝ → ℝ → ℕ → ℝ × ℝ
  | v, f, 0 => (v, f)
  | v, f, n + 1 =>
    if |new_f v f - f| < tol then (v, f)
    else cvfLoop h L tol (velocityOf h L (new_f v f)) (new_f v f) n

/-- `calculate_velocity_and_friction(h, L, tol, max_iterations)`:
initial guess `f = 0.02`, initial velocity from that guess, then the
iteration loop. -/
noncomputable def calculate_velocity_and_friction (h L tol : ℝ) (max_iterations : ℕ) : ℝ × ℝ :=
  cvfLoop h L tol (velocityOf h L 0.02) 0.02 max_iterations

/-- The sequence of friction-factor iterates produced by the solver loop
(before any `break`): `f_0 = 0.02` and `f_{k+1} = new_f(v_k, f_k)` where
`v_k` is the velocity recomputed from `f_k`. -/
noncomputable def cvfFSeq (h L : ℝ) : ℕ → ℝ
  | 0 => 0.02
  | k + 1 => new_f (velocityOf h L (cvfFSeq h L k)) (cvfFSeq h L k)

/-- The solver's convergence check succeeds at some iteration `i < n`:
this is exactly the condition under which the Python loop hits `break`
within `n` iterations. -/
def cvfConverged (h L tol : ℝ) (n : ℕ) : Prop :=
  ∃ i, i < n ∧
    |new_f (velocityOf h L (cvfFSeq h L i)) (cvfFSeq h L i) - cvfFSeq h L i| < tol

/-- The forward-Euler height sequence of `simulate_drain_time(L)`:
`h_0 = H_INITIAL` and `h_{k+1} = h_k - (A_TUBE / A_TANK) * v(h_k) * DT`,
where `v(h_k)` is the velocity returned by the solver (default
`tol = 1e-6`, `max_iterations = 100`) at the current height. -/
noncomputable def hS (L : ℝ) : ℕ → ℝ
  | 0 => H_INITIAL
  | k + 1 =>
    hS L k - A_TUBE / A_TANK * (calculate_velocity_and_friction (hS L k) L 1e-6 100).1 * DT

/-- The `while h > H_FINAL` loop of `simulate_drain_time`, with fuel.
State: current height, accumulated `total_time`, the `times` list and the
`heights` list (both appended to after the height/time update, as in the
source).  `none` means the loop has not exited within the given fuel; the
source has no iteration cap and no error path of its own. -/
noncomputable def drainLoop (L : ℝ) : ℝ → ℝ → List ℝ → List ℝ → ℕ → Option (ℝ × List ℝ × List ℝ)
  | _, _, _, _, 0 => none
  | h, t, times, heights, n + 1 =>
    if H_FINAL < h then
      drainLoop L (h - A_TUBE / A_TANK * (calculate_velocity_and_friction h L 1e-6 100).1 * DT)
        (t + DT)
        (times ++ [t + DT])
        (heights ++ [h - A_TUBE / A_TANK * (calculate_velocity_and_friction h L 1e-6 100).1 * DT])
        n
    else some (t, times, heights)

/-- `simulate_drain_time(L)`: run the drain loop from `h = H_INITIAL`,
`total_time = 0` and empty lists, returning `(total_time, times, heights)`. -/
noncomputable def simulate_drain_time (L : ℝ) (fuel : ℕ) : Option (ℝ × List ℝ × List ℝ) :=
  drainLoop L H_INITIAL 0 [] [] fuel

end ProperFluidSim

namespace IterativeDarcy

/-- Gravitational acceleration (m/s^2), module constant `g` of
`reynolds_numbers_w_iterative_darcy.py`. -/
def g : ℝ := 9.81

/-- Velocity computed inside `iterative_darcy_reynolds`:
`np.sqrt(2 * g * h / (1 + f * L / D + K))`. -/
noncomputable def idrV (h L D K f : ℝ) : ℝ :=
  Real.sqrt (2 * g * h / (1 + f * L / D + K))

/-- Reynolds number computed inside `iterative_darcy_reynolds`:
`Re = (rho * v * D) / mu`. -/
noncomputable def idrRe (h L D K rho mu f : ℝ) : ℝ :=
  rho * idrV h L D K f * D / mu

/-- One friction-factor update of `iterative_darcy_reynolds`: laminar
`64 / Re` when `Re < 2000`, otherwise the Haaland-type explicit formula
`(-1.8 * np.log10((epsilon / D) / 3.7 + 6.9 / Re)) ** -2`. -/
noncomputable def idrStepF (h L epsilon D K rho mu f : ℝ) : ℝ :=
  if idrRe h L D K rho mu f < 2000 then 64 / idrRe h L D K rho mu f
  else ((-1.8) * Real.logb 10 (epsilon / D / 3.7 + 6.9 / idrRe h L D K rho mu f)) ^ (-2 : ℤ)

/-- The `for i in range(max_iter)` loop of `iterative_darcy_reynolds`,
with the remaining iteration count as fuel.  On convergence
(`abs(f_new - f) < tol`) it returns `some (Re, f_new)`; on exhaustion the
source raises `RuntimeError("Darcy friction factor did not converge")`,
modelled as `none`. -/
noncomputable def idrLoop (h L epsilon D K rho mu tol : ℝ) : ℝ → ℕ → Option (ℝ × ℝ)
  | _, 0 => none
  | f, n + 1 =>
    if |idrStepF h L epsilon D K rho mu f - f| < tol then
      some (idrRe h L D K rho mu f, idrStepF h L epsilon D K rho mu f)
    else idrLoop h L epsilon D K rho mu tol (idrStepF h L epsilon D K rho mu f) n

/-- `iterative_darcy_reynolds(h, L, epsilon, D, K, rho, mu, max_iter, tol)`:
initial guess `f = 0.02`, then the iteration loop. -/
noncomputable def iterative_darcy_reynolds (h L epsilon D K rho mu : ℝ) (max_iter : ℕ)
    (tol : ℝ) : Option (ℝ × ℝ) :=
  idrLoop h L epsilon D K rho mu tol 0.02 max_iter

/-- The friction-factor iterates of `iterative_darcy_reynolds` starting
from an arbitrary seed. -/
noncomputable def idrIter (h L epsilon D K rho mu f : ℝ) : ℕ → ℝ
  | 0 => f
  | k + 1 => idrStepF h L epsilon D K rho mu (idrIter h L epsilon D K rho mu f k)

/-- The friction-factor iterates of `iterative_darcy_reynolds` from the
source's seed `f = 0.02`. -/
noncomputable def idrFSeq (h L epsilon D K rho mu : ℝ) (k : ℕ) : ℝ :=
  idrIter h L epsilon D K rho mu 0.02 k

end IterativeDarcy

namespace DischargeModel

/-- Gravitational acceleration (m/s^2), module constant `g` of
`discharge_model.py`. -/
def g : ℝ := 9.81

/-- Dynamic viscosity of water (Pa.s), module constant `mu`. -/
def mu : ℝ := 0.001

/-- Tube diameter in meters: `7.94 / 1000`. -/
noncomputable def diameter : ℝ := 7.94 / 1000

/-- Cross-sectional area of the tube: `pi * (diameter / 2)**2`. -/
noncomputable def area : ℝ := Real.pi * (diameter / 2) ^ 2

/-- Initial height of water in the reservoir (m), module constant `H`. -/
def H : ℝ := 0.08

/-- Time step (s) set inside `drain_time`. -/
def dt : ℝ := 0.01

/-- `reynolds_number(v, d, mu) = (v * d) / mu`. -/
noncomputable def reynolds_number (v d mu : ℝ) : ℝ := v * d / mu

/-- `friction_factor(Re)`: `64 / Re` for `Re < 2000`,
`0.3164 * Re**-0.25` for `2000 <= Re < 4000`, `0.184 * Re**-0.2`
otherwise. -/
noncomputable def friction_factor (Re : ℝ) : ℝ :=
  if Re < 2000 then 64 / Re
  else if Re < 4000 then 0.3164 * Re ^ (-0.25 : ℝ)
  else 0.184 * Re ^ (-0.2 : ℝ)

/-- Velocity by Bernoulli inside the drain loop: `v = np.sqrt(2 * g * h)`. -/
noncomputable def vBern (h : ℝ) : ℝ := Real.sqrt (2 * g * h)

/-- Major head loss computed in the drain loop:
`head_loss = f * (L / diameter) * (v**2 / (2 * g))` with
`f = friction_factor(reynolds_number(v, diameter, mu))` and `v = vBern h`. -/
noncomputable def head_loss (L h : ℝ) : ℝ :=
  friction_factor (reynolds_number (vBern h) diameter mu) * (L / diameter) *
    (vBern h ^ 2 / (2 * g))

/-- Adjusted velocity in the drain loop:
`v_actual = np.sqrt(2 * g * (h - head_loss))`, applied with no check that
`h - head_loss` is non-negative. -/
noncomputable def v_actual (L h : ℝ) : ℝ :=
  Real.sqrt (2 * g * (h - head_loss L h))

/-- One height update of `drain_time`'s loop:
`dh = -(v_actual * area * dt) / (np.pi * (0.5)**2); h += dh`. -/
noncomputable def drainStep (L h : ℝ) : ℝ :=
  h + -(v_actual L h * area * dt) / (Real.pi * (0.5 : ℝ) ^ 2)

/-- The `while h > 0.04` loop of `drain_time`, with fuel; `none` means
the loop has not exited within the given fuel (the source has no cap). -/
noncomputable def drainTimeLoop (L : ℝ) : ℝ → ℝ → ℕ → Option ℝ
  | _, _, 0 => none
  | h, time, n + 1 =>
    if (0.04 : ℝ) < h then drainTimeLoop L (drainStep L h) (time + dt) n
    else some time

/-- `drain_time(L)`: run the loop from `h = H`, `time = 0`. -/
noncomputable def drain_time (L : ℝ) (fuel : ℕ) : Option ℝ :=
  drainTimeLoop L H 0 fuel

end DischargeModel

namespace ProperFluidSim

/-- Loop invariant of `calculate_velocity_and_friction`: whenever the
current velocity was computed from the current friction factor, the
returned pair still satisfies that relation (the loop recomputes the
velocity from each new friction factor before the next test, and both
exit paths return the pair unchanged). -/
theorem cvfLoop_fst_eq (h L tol : ℝ) :
    ∀ (n : ℕ) (f : ℝ),
      (cvfLoop h L tol (velocityOf h L f) f n).1 =
        velocityOf h L (cvfLoop h L tol (velocityOf h L f) f n).2 := by
  intro n
  induction n with
  | zero => intro f; rfl
  | succ n ih =>
    intro f
    rw [cvfLoop]
    by_cases hc : |new_f (velocityOf h L f) f - f| < tol
    · rw [if_pos hc]
    · rw [if_neg hc]
      exact ih (new_f (velocityOf h L f) f)

/-- The velocity returned by the solver is a square root, hence
non-negative. -/
theorem cvf_fst_nonneg (h L tol : ℝ) (n : ℕ) :
    0 ≤ (calculate_velocity_and_friction h L tol n).1 := by
  rw [calculate_velocity_and_friction, cvfLoop_fst_eq, velocityOf]
  exact Real.sqrt_nonneg _

/-- C2: for every call of `calculate_velocity_and_friction` — in
particular every converged one — the returned velocity equals
`sqrt(2 * G * h / (1 + f * L / D_TUBE + K_ENTRANCE + K_EXIT))` evaluated
at the returned friction factor `f`, so the returned pair (and the
Reynolds number derived from the velocity) is consistent under the
governing energy-balance equation; the relation holds exactly, hence in
particular to within the solver's tolerance. -/
theorem velocity_satisfies_energy_balance (h L tol : ℝ) (n : ℕ) :
    (calculate_velocity_and_friction h L tol n).1 =
      Real.sqrt (2 * G * h /
        (1 + (calculate_velocity_and_friction h L tol n).2 * L / D_TUBE +
          K_ENTRANCE + K_EXIT)) := by
  rw [calculate_velocity_and_friction, cvfLoop_fst_eq, velocityOf]

/-- C1 counterexample: a call whose friction-factor iteration has not
stabilized within `max_iterations` (here `max_iterations = 0`, so the
convergence check can never have passed) does not fail: it returns the
numeric pair `(initial velocity, 0.02)` to the caller. -/
theorem cvf_returns_value_without_convergence :
    ¬ cvfConverged 2 1 1e-6 0 ∧
      calculate_velocity_and_friction 2 1 1e-6 0 = (velocityOf 2 1 0.02, 0.02) := by
  constructor
  · rintro ⟨i, hi, -⟩
    exact absurd hi (Nat.not_lt_zero i)
  · rfl

/-- C7 counterexample: with `max_iterations = 0` the solver of
`proper_fluid_sim.py` does not fail with a convergence error; it returns
the initial guess pair unchanged. -/
theorem cvf_maxiter_zero_returns_result :
    calculate_velocity_and_friction 3 0.5 1e-6 0 = (velocityOf 3 0.5 0.02, 0.02) ∧
      ¬ cvfConverged 3 0.5 1e-6 0 := by
  refine ⟨rfl, ?_⟩
  rintro ⟨i, hi, -⟩
  exact absurd hi (Nat.not_lt_zero i)

/-- C3: the friction-factor update of the solver loop is flow-regime
dependent with laminar threshold `2300` (a constant in the 2000–2300
range): below the threshold the new factor is `64 / Re`, at or above it
the new factor is the Colebrook correlation of `Re` and the relative
roughness with the previous iterate `f` substituted into the implicit
term; and every iteration of the loop uses exactly this update. -/
theorem friction_update_regime_cases (v f : ℝ) :
    (reynoldsUsed v < 2300 → new_f v f = 64 / reynoldsUsed v) ∧
      (2300 ≤ reynoldsUsed v → new_f v f = colebrook (reynoldsUsed v) D_TUBE f) ∧
      ∀ (h L tol : ℝ) (n : ℕ),
        cvfLoop h L tol v f (n + 1) =
          if |new_f v f - f| < tol then (v, f)
          else cvfLoop h L tol (velocityOf h L (new_f v f)) (new_f v f) n := by
  refine ⟨fun hlam => ?_, fun hturb => ?_, fun h L tol n => rfl⟩
  · rw [new_f, if_pos hlam]
  · rw [new_f, if_neg (not_lt.mpr hturb)]

/-- Witness for `friction_update_regime_cases`: at velocity `100 / 794`
the (unclamped) Reynolds number is exactly `1000 < 2300`, and the update
produces `64 / Re`. -/
theorem friction_update_regime_cases_witness :
    reynoldsUsed (100 / 794) < 2300 ∧
      new_f (100 / 794) 0.02 = 64 / reynoldsUsed (100 / 794) := by
  have h1 : reynoldsUsed (100 / 794 : ℝ) < 2300 := by
    rw [reynoldsUsed]
    norm_num [RHO, D_TUBE, MU]
  exact ⟨h1, (friction_update_regime_cases (100 / 794) 0.02).1 h1⟩

/-- At zero height the velocity formula yields `sqrt 0 = 0` for any
friction factor. -/
theorem velocityOf_zero (L f : ℝ) : velocityOf 0 L f = 0 := by
  rw [velocityOf]
  norm_num

/-- At zero velocity the raw Reynolds number is `0`, the clamp raises it
to `1e-6`, the laminar branch fires, and the update returns
`64 / 1e-6 = 64000000` regardless of the previous friction factor. -/
theorem new_f_v_zero (f : ℝ) : new_f 0 f = 64000000 := by
  simp only [new_f, reynoldsUsed]
  norm_num [RHO, D_TUBE, MU]

/-- If the velocity recomputation gives `0` both at the seed friction
factor and at the clamped update `64000000`, the solver stabilizes in two
iterations and returns `(0, 64000000)` for any iteration budget of at
least two. -/
theorem cvf_stuck_zero (h L : ℝ) (hv1 : velocityOf h L 0.02 = 0)
    (hv2 : velocityOf h L 64000000 = 0) (n : ℕ) :
    calculate_velocity_and_friction h L 1e-6 (n + 2) = (0, 64000000) := by
  rw [calculate_velocity_and_friction, hv1, cvfLoop, new_f_v_zero,
    if_neg (by rw [abs_lt]; push_neg; intro hcon; norm_num), hv2, cvfLoop, new_f_v_zero,
    if_pos (by norm_num)]

/-- C9: the Reynolds number actually used by the solver loop is always at
least the positive floor `1e-6` (in particular never zero, so the laminar
division `64 / Re` is never a division by zero), and at zero height —
where the velocity is `0` and the raw Reynolds number degenerates to `0`
— the solver still returns a result, `(0, 64000000)`, rather than
failing. -/
theorem reynolds_floor_prevents_div_by_zero :
    (∀ v : ℝ, (1e-6 : ℝ) ≤ reynoldsUsed v ∧ reynoldsUsed v ≠ 0) ∧
      calculate_velocity_and_friction 0 0.3 1e-6 100 = (0, 64000000) := by
  constructor
  · intro v
    rw [reynoldsUsed]
    split_ifs with hv
    · exact ⟨le_refl _, by norm_num⟩
    · have h1 : (1e-6 : ℝ) ≤ RHO * v * D_TUBE / MU := not_lt.mp hv
      exact ⟨h1, ne_of_gt (lt_of_lt_of_le (by norm_num) h1)⟩
  · have h100 : (100 : ℕ) = 98 + 2 := by norm_num
    rw [h100]
    exact cvf_stuck_zero 0 0.3 (velocityOf_zero 0.3 0.02) (velocityOf_zero 0.3 64000000) 98

/-- With tube length `-1` the energy-balance denominator is negative at
the seed friction factor, so the velocity formula takes the square root
of a negative quantity, which is `0` in the real-valued model. -/
theorem velocityOf_neg_length_seed : velocityOf H_INITIAL (-1) 0.02 = 0 := by
  rw [velocityOf, Real.sqrt_eq_zero']
  norm_num [G, H_INITIAL, D_TUBE, K_ENTRANCE, K_EXIT]

/-- Same as `velocityOf_neg_length_seed` at the clamped friction factor. -/
theorem velocityOf_neg_length_clamped : velocityOf H_INITIAL (-1) 64000000 = 0 := by
  rw [velocityOf, Real.sqrt_eq_zero']
  norm_num [G, H_INITIAL, D_TUBE, K_ENTRANCE, K_EXIT]

/-- At tube length `-1` the solver stabilizes on `(velocity, f) =
(0, 64000000)`: the height can never decrease from such a state. -/
theorem cvf_stuck_neg_length :
    calculate_velocity_and_friction H_INITIAL (-1) 1e-6 100 = (0, 64000000) := by
  have h100 : (100 : ℕ) = 98 + 2 := by norm_num
  rw [h100]
  exact cvf_stuck_zero H_INITIAL (-1) velocityOf_neg_length_seed velocityOf_neg_length_clamped 98

/-- From any loop state at height `H_INITIAL` with tube length `-1`, the
drain loop is still running after every number of iterations. -/
theorem drainLoop_stuck_aux :
    ∀ (n : ℕ) (t : ℝ) (ts hs : List ℝ), drainLoop (-1) H_INITIAL t ts hs n = none := by
  intro n
  induction n with
  | zero => intro t ts hs; rfl
  | succ n ih =>
    intro t ts hs
    rw [drainLoop, if_pos (by norm_num [H_FINAL, H_INITIAL] : H_FINAL < H_INITIAL),
      cvf_stuck_neg_length]
    norm_num
    exact ih _ _ _

/-- C5: the `while h > H_FINAL` loop of `simulate_drain_time` has no
iteration cap and no `DrainDidNotCompleteError`: at the pathological tube
length `L = -1` the solver's velocity is `0` (the energy-balance
denominator is negative), the height never decreases, and for every
iteration bound `n` the loop is still running (`none`) without ever
reporting an error, contradicting the required `InfiniteLoopGuard`. -/
theorem drain_loop_never_completes (n : ℕ) :
    simulate_drain_time (-1) n = none := by
  rw [simulate_drain_time]
  exact drainLoop_stuck_aux n 0 [] []

/-- Correspondence between the drain loop and the forward-Euler height
recurrence `hS`, from an arbitrary loop state: either the loop exits
after exactly `j` full steps (all earlier heights above `H_FINAL`, the
`j`-th at or below it) with the recorded times and heights being exactly
the Euler iterates, or the height is still above `H_FINAL` at every step
the fuel allows and the loop is still running. -/
theorem drainLoop_euler_aux (L : ℝ) :
    ∀ (n m : ℕ) (t : ℝ) (ts hs : List ℝ),
      (∃ j, j < n ∧ (∀ k < j, H_FINAL < hS L (m + k)) ∧ hS L (m + j) ≤ H_FINAL ∧
        drainLoop L (hS L m) t ts hs n =
          some (t + (j : ℝ) * DT,
            ts ++ (List.range j).map (fun k : ℕ => t + ((k : ℝ) + 1) * DT),
            hs ++ (List.range j).map (fun k => hS L (m + k + 1)))) ∨
      ((∀ k < n, H_FINAL < hS L (m + k)) ∧ drainLoop L (hS L m) t ts hs n = none) := by
  intro n
  induction n with
  | zero =>
    intro m t ts hs
    exact Or.inr ⟨fun k hk => absurd hk (Nat.not_lt_zero k), rfl⟩
  | succ n ih =>
    intro m t ts hs
    by_cases hc : H_FINAL < hS L m
    · rw [drainLoop, if_pos hc]
      have hstep : hS L m -
          A_TUBE / A_TANK * (calculate_velocity_and_friction (hS L m) L 1e-6 100).1 * DT =
          hS L (m + 1) := rfl
      rw [hstep]
      rcases ih (m + 1) (t + DT) (ts ++ [t + DT]) (hs ++ [hS L (m + 1)]) with
        ⟨j, hj, hbelow, hstop, heq⟩ | ⟨hall, heq⟩
      · left
        refine ⟨j + 1, Nat.succ_lt_succ hj, ?_, ?_, ?_⟩
        · intro k hk
          match k, hk with
          | 0, _ => simpa using hc
          | k' + 1, hk' =>
            have hx := hbelow k' (Nat.lt_of_succ_lt_succ hk')
            have hidx : m + 1 + k' = m + (k' + 1) := by omega
            rwa [hidx] at hx
        · have hidx : m + 1 + j = m + (j + 1) := by omega
          rwa [hidx] at hstop
        · rw [heq]
          have htime : t + DT + (j : ℝ) * DT = t + ((j : ℕ) + 1 : ℕ) * DT := by
            push_cast
            ring
          have hts : (ts ++ [t + DT]) ++
                (List.range j).map (fun k : ℕ => t + DT + ((k : ℝ) + 1) * DT) =
              ts ++ (List.range (j + 1)).map (fun k : ℕ => t + ((k : ℝ) + 1) * DT) := by
            rw [List.append_assoc, List.range_succ_eq_map, List.map_cons, List.map_map]
            congr 1
            rw [List.singleton_append]
            congr 1
            · push_cast
              ring
            · apply List.map_congr_left
              intro a _
              show t + DT + ((a : ℝ) + 1) * DT = t + (((a + 1 : ℕ) : ℝ) + 1) * DT
              push_cast
              ring
          have hhs : (hs ++ [hS L (m + 1)]) ++
                (List.range j).map (fun k => hS L (m + 1 + k + 1)) =
              hs ++ (List.range (j + 1)).map (fun k => hS L (m + k + 1)) := by
            rw [List.append_assoc, List.range_succ_eq_map, List.map_cons, List.map_map]
            congr 1
            rw [List.singleton_append]
            congr 1
            apply List.map_congr_left
            intro a _
            show hS L (m + 1 + a + 1) = hS L (m + (a + 1) + 1)
            congr 1
            omega
          rw [htime, hts, hhs]
      · right
        refine ⟨?_, heq⟩
        intro k hk
        match k, hk with
        | 0, _ => simpa using hc
        | k' + 1, hk' =>
          have hx := hall k' (Nat.lt_of_succ_lt_succ hk')
          have hidx : m + 1 + k' = m + (k' + 1) := by omega
          rwa [hidx] at hx
    · left
      have hle : hS L (m + 0) ≤ H_FINAL := by simpa using not_lt.mp hc
      refine ⟨0, Nat.succ_pos n, fun k hk => absurd hk (Nat.not_lt_zero k), hle, ?_⟩
      rw [drainLoop, if_neg hc]
      simp

/-- C4: every run of `simulate_drain_time` is exactly the stated forward
Euler recurrence.  For every tube length and fuel bound, either the loop
exits after `m` full steps with: all heights before step `m` above
`H_FINAL`, the (unclamped, full-step) height `hS L m ≤ H_FINAL` as the
last entry of the recorded heights — so the last recorded height may lie
below `H_FINAL` — the recorded times `DT, 2·DT, …, m·DT`, and the
returned total time equal to the final accumulated time `m·DT`; or the
height is still above `H_FINAL` at every step the fuel allows and the
loop is still running. -/
theorem drain_follows_euler_recurrence (L : ℝ) (n : ℕ) :
    (∃ m, m < n ∧ (∀ k < m, H_FINAL < hS L k) ∧ hS L m ≤ H_FINAL ∧
      simulate_drain_time L n =
        some ((m : ℝ) * DT,
          (List.range m).map (fun k : ℕ => ((k : ℝ) + 1) * DT),
          (List.range m).map (fun k => hS L (k + 1)))) ∨
    ((∀ k < n, H_FINAL < hS L k) ∧ simulate_drain_time L n = none) := by
  have base := drainLoop_euler_aux L n 0 0 [] []
  rw [simulate_drain_time, show H_INITIAL = hS L 0 from rfl]
  rcases base with ⟨j, hj, hb, hstop, heq⟩ | ⟨hall, heq⟩
  · left
    refine ⟨j, hj, by simpa using hb, by simpa using hstop, ?_⟩
    rw [heq]
    simp
  · right
    exact ⟨by simpa using hall, heq⟩

/-- Each Euler step removes a non-negative amount of height: the tube and
tank areas, the time step, and the solver's velocity (a square root) are
all non-negative. -/
theorem hS_step_le (L : ℝ) (k : ℕ) : hS L (k + 1) ≤ hS L k := by
  rw [hS]
  have h1 : 0 ≤ A_TUBE / A_TANK * (calculate_velocity_and_friction (hS L k) L 1e-6 100).1 * DT := by
    apply mul_nonneg
    apply mul_nonneg
    · apply div_nonneg
      · rw [A_TUBE]
        positivity
      · rw [A_TANK, LENGTH_TANK, WIDTH_TANK]
        norm_num
    · exact cvf_fst_nonneg _ _ _ _
    · rw [DT]
      norm_num
  linarith

/-- C6: the height sequence recorded in the trajectory of every
simulation run is non-increasing — starting from `H_INITIAL`, each
recorded height is at most the previous one (the solver's velocity is a
square root, hence always ≥ 0, so every Euler step removes a
non-negative height increment). -/
theorem trajectory_heights_nonincreasing (L : ℝ) (n : ℕ) :
    List.Chain' (fun a b => b ≤ a)
      (H_INITIAL :: (simulate_drain_time L n).elim [] (fun r => r.2.2)) := by
  rw [simulate_drain_time, show H_INITIAL = hS L 0 from rfl]
  rcases drainLoop_euler_aux L n 0 0 [] [] with ⟨j, hj, hb, hstop, heq⟩ | ⟨hall, heq⟩
  · rw [heq]
    simp only [Option.elim, List.nil_append]
    have hlist : hS L 0 :: (List.range j).map (fun k => hS L (0 + k + 1)) =
        (List.range (j + 1)).map (hS L) := by
      rw [List.range_succ_eq_map, List.map_cons, List.map_map]
      congr 1
      apply List.map_congr_left
      intro a _
      show hS L (0 + a + 1) = hS L (a + 1)
      congr 1
      omega
    rw [hlist, List.chain'_map, List.chain'_range_succ]
    intro mm hmm
    exact hS_step_le L mm
  · rw [heq]
    simp

/-- C8 counterexample: at `h = 0.001`, `L = 0.3` the Reynolds number at
the returned velocity is laminar (below 2000, indeed below 794), yet with
`max_iterations = 0` the solver returns the seed `f = 0.02`, which
differs from `64 / Re` by far more than the tolerance `1e-6`: the
"friction factor equals `64 / Re` within tolerance" property does not
hold regardless of iteration count — it requires the convergence check to
have passed. -/
theorem cvf_laminar_seed_far_from_64_over_Re :
    reynoldsUsed (calculate_velocity_and_friction 0.001 0.3 1e-6 0).1 < 2000 ∧
      ¬ |(calculate_velocity_and_friction 0.001 0.3 1e-6 0).2 -
          64 / reynoldsUsed (calculate_velocity_and_friction 0.001 0.3 1e-6 0).1| < 1e-6 := by
  have hres : calculate_velocity_and_friction 0.001 0.3 1e-6 0 =
      (velocityOf 0.001 0.3 0.02, 0.02) := rfl
  rw [hres]
  dsimp only
  set v := velocityOf 0.001 0.3 0.02 with hv
  have hv_lo : (0.09 : ℝ) < v := by
    rw [hv, velocityOf]
    refine (Real.lt_sqrt (by norm_num)).mpr ?_
    rw [G, D_TUBE, K_ENTRANCE, K_EXIT]
    norm_num
  have hv_hi : v < (0.1 : ℝ) := by
    rw [hv, velocityOf]
    refine (Real.sqrt_lt' (by norm_num)).mpr ?_
    rw [G, D_TUBE, K_ENTRANCE, K_EXIT]
    norm_num
  have hraw : RHO * v * D_TUBE / MU = 7940 * v := by
    rw [RHO, D_TUBE, MU]
    ring
  have hre : reynoldsUsed v = 7940 * v := by
    rw [reynoldsUsed, hraw, if_neg (by nlinarith)]
  constructor
  · rw [hre]
    nlinarith
  · rw [hre]
    have h0 : (0 : ℝ) < 7940 * v := by nlinarith
    have hub : 7940 * v < 794 := by nlinarith
    have hq : (64 : ℝ) / 794 < 64 / (7940 * v) :=
      div_lt_div_of_pos_left (by norm_num) h0 hub
    intro habs
    rw [abs_lt] at habs
    obtain ⟨h1, h2⟩ := habs
    have hcon : (64 : ℝ) / 794 < 0.02 + 1e-6 := by linarith
    norm_num at hcon

end ProperFluidSim

namespace DischargeModel

/-- C10: in the drain loop of `discharge_model.py`, already at the very
first iteration (`h = H = 0.08`, within the repository's own sweep at
`L = 0.3`) the friction head loss `f * (L / diameter) * (v^2 / (2g))`
exceeds the current height, the argument `h - head_loss` of the
adjusted-velocity square root is negative, and the loop body applies
`np.sqrt` to it unguarded (in this real-valued model the square root of a
negative number is `0`; NumPy produces `nan`), with no error reported to
the caller. -/
theorem sqrt_negative_argument_unguarded :
    (0.04 : ℝ) < H ∧ H - head_loss 0.3 H < 0 ∧
      v_actual 0.3 H = Real.sqrt (2 * g * (H - head_loss 0.3 H)) := by
  refine ⟨by rw [H]; norm_num, ?_, rfl⟩
  have harg : (0 : ℝ) ≤ 2 * g * H := by
    rw [g, H]
    norm_num
  set v := vBern H with hv
  have hv2 : v ^ 2 = 2 * g * H := by
    rw [hv, vBern]
    exact Real.sq_sqrt harg
  have hv_pos : (0 : ℝ) < v := by
    rw [hv, vBern]
    refine Real.sqrt_pos.mpr ?_
    rw [g, H]
    norm_num
  have hv_hi : v < (1.3 : ℝ) := by
    rw [hv, vBern]
    refine (Real.sqrt_lt' (by norm_num)).mpr ?_
    rw [g, H]
    norm_num
  have hre : reynolds_number v diameter mu = 7.94 / 1000 / 0.001 * v := by
    rw [reynolds_number, diameter, mu]
    ring
  have hff : friction_factor (reynolds_number v diameter mu) = 64 / (7.94 / 1000 / 0.001 * v) := by
    rw [hre, friction_factor, if_pos (by nlinarith)]
  rw [head_loss, ← hv, hff, hv2, sub_neg, div_mul_eq_mul_div, div_mul_eq_mul_div,
    lt_div_iff₀ (by positivity)]
  rw [g, H, diameter]
  nlinarith

end DischargeModel

namespace IterativeDarcy

/-- C7 (amended part): `iterative_darcy_reynolds` with `max_iter = 0`
always fails — the `for` loop body never runs, the convergence check can
never pass, and the function falls through to
`raise RuntimeError(...)` (modelled as `none`) for every input. -/
theorem idr_maxiter_zero_always_fails (h L epsilon D K rho mu tol : ℝ) :
    iterative_darcy_reynolds h L epsilon D K rho mu 0 tol = none := rfl

/-- Shifting the seed of the iterate sequence by one step. -/
theorem idrIter_shift (h L epsilon D K rho mu f : ℝ) :
    ∀ j, idrIter h L epsilon D K rho mu (idrStepF h L epsilon D K rho mu f) j =
      idrIter h L epsilon D K rho mu f (j + 1)
  | 0 => rfl
  | j + 1 => by
    rw [idrIter, idrIter_shift h L epsilon D K rho mu f j]
    rfl

/-- The loop of `iterative_darcy_reynolds` raises (returns `none`) if and
only if the convergence check `abs(f_new - f) < tol` fails at every one of
the `n` iterations it is allowed. -/
theorem idrLoop_none_iff (h L epsilon D K rho mu tol : ℝ) :
    ∀ (n : ℕ) (f : ℝ),
      (idrLoop h L epsilon D K rho mu tol f n = none ↔
        ∀ i < n,
          ¬ |idrStepF h L epsilon D K rho mu (idrIter h L epsilon D K rho mu f i) -
              idrIter h L epsilon D K rho mu f i| < tol) := by
  intro n
  induction n with
  | zero =>
    intro f
    simp [idrLoop]
  | succ n ih =>
    intro f
    rw [idrLoop]
    by_cases hc : |idrStepF h L epsilon D K rho mu f - f| < tol
    · rw [if_pos hc]
      constructor
      · intro hnone
        exact absurd hnone (by simp)
      · intro hall
        exact absurd hc (by simpa [idrIter] using hall 0 (Nat.succ_pos n))
    · rw [if_neg hc, ih (idrStepF h L epsilon D K rho mu f)]
      constructor
      · intro hall i hi
        match i, hi with
        | 0, _ => simpa [idrIter] using hc
        | j + 1, hj =>
          have hh := hall j (Nat.lt_of_succ_lt_succ hj)
          rwa [idrIter_shift h L epsilon D K rho mu f j] at hh
      · intro hall i hi
        have hh := hall (i + 1) (Nat.succ_lt_succ hi)
        rwa [← idrIter_shift h L epsilon D K rho mu f i] at hh

/-- C1 (amended part): `iterative_darcy_reynolds` reports failure
(raises `RuntimeError`, modelled as `none`) exactly when the friction
factor has not stabilized — i.e. the check `abs(f_new - f) < tol` has
failed at every one of its `max_iter` iterations; in particular it never
returns a numeric result in that situation. -/
theorem idr_none_iff_never_converges (h L epsilon D K rho mu : ℝ) (max_iter : ℕ) (tol : ℝ) :
    iterative_darcy_reynolds h L epsilon D K rho mu max_iter tol = none ↔
      ∀ i < max_iter,
        ¬ |idrStepF h L epsilon D K rho mu (idrFSeq h L epsilon D K rho mu i) -
            idrFSeq h L epsilon D K rho mu i| < tol :=
  idrLoop_none_iff h L epsilon D K rho mu tol max_iter 0.02

/-- If the loop of `iterative_darcy_reynolds` returns a result whose
Reynolds number is in the laminar range, the returned friction factor is
exactly `64 / Re`. -/
theorem idrLoop_laminar (h L epsilon D K rho mu tol : ℝ) :
    ∀ (n : ℕ) (f0 Re f : ℝ),
      idrLoop h L epsilon D K rho mu tol f0 n = some (Re, f) → Re < 2000 → f = 64 / Re := by
  intro n
  induction n with
  | zero =>
    intro f0 Re f hsome
    exact absurd hsome (by simp [idrLoop])
  | succ n ih =>
    intro f0 Re f hsome hRe
    rw [idrLoop] at hsome
    by_cases hc : |idrStepF h L epsilon D K rho mu f0 - f0| < tol
    · rw [if_pos hc] at hsome
      rw [Option.some.injEq, Prod.mk.injEq] at hsome
      obtain ⟨hre, hf⟩ := hsome
      rw [idrStepF, hre, if_pos hRe] at hf
      exact hf.symm
    · rw [if_neg hc] at hsome
      exact ih (idrStepF h L epsilon D K rho mu f0) Re f hsome hRe

/-- C8 (amended part): whenever `iterative_darcy_reynolds` converges and
returns `(Re, f)` with `Re` in the laminar range (`Re < 2000`), the
returned friction factor equals `64 / Re` exactly — hence a fortiori to
within the tolerance — independent of how many iterations were used. -/
theorem idr_laminar_exact (h L epsilon D K rho mu : ℝ) (max_iter : ℕ) (tol Re f : ℝ) :
    iterative_darcy_reynolds h L epsilon D K rho mu max_iter tol = some (Re, f) →
      Re < 2000 → f = 64 / Re :=
  idrLoop_laminar h L epsilon D K rho mu tol max_iter 0.02 Re f

/-- Concrete converged laminar run witnessing `idr_laminar_exact`:
with `h = 50/981`, `L = 0`, `K = 0`, `D = 1`, `rho = 1000`, `mu = 1` the
velocity is exactly `1`, `Re = 1000 < 2000`, and with `tol = 1` the first
iteration converges, returning `(1000, 64/1000)`. -/
theorem idr_laminar_exact_witness :
    iterative_darcy_reynolds (50 / 981) 0 0 1 0 1000 1 1 1 = some (1000, 8 / 125) ∧
      (1000 : ℝ) < 2000 ∧ (8 / 125 : ℝ) = 64 / 1000 := by
  have hv : idrV (50 / 981) 0 1 0 0.02 = 1 := by
    rw [idrV]
    norm_num [g, Real.sqrt_one]
  have hRe : idrRe (50 / 981) 0 1 0 1000 1 0.02 = 1000 := by
    rw [idrRe, hv]
    norm_num
  have hstep : idrStepF (50 / 981) 0 0 1 0 1000 1 0.02 = 8 / 125 := by
    rw [idrStepF, hRe, if_pos (by norm_num : (1000 : ℝ) < 2000)]
    norm_num
  have hsome : iterative_darcy_reynolds (50 / 981) 0 0 1 0 1000 1 1 1 = some (1000, 8 / 125) := by
    show idrLoop (50 / 981) 0 0 1 0 1000 1 1 0.02 (0 + 1) = some (1000, 8 / 125)
    rw [idrLoop, hstep, if_pos (by rw [abs_lt]; constructor <;> norm_num), hRe]
  exact ⟨hsome, by norm_num,
    idr_laminar_exact (50 / 981) 0 0 1 0 1000 1 1 1 1000 (8 / 125) hsome (by norm_num)⟩

end IterativeDarcy
